import Mathlib

/-!
Verification of the pg-switcher-sdk gateway abstraction and dynamic-switching
subsystem.  The Go sources (gateway.go, payout_gateway.go, the switcher file,
and the four provider adapters) are embedded shallowly: Go interfaces become
structures of function fields, `map[string]X` registries become association
lists with unique keys, `(T, error)` returns become `Except String T` where the
error is the `fmt.Errorf` message string, and `[]byte` payloads become lists of
bytes.
-/

namespace PgSwitcher

/-- Go `context.Context`, reduced to the caller-visible capabilities the spec
talks about: an optional deadline and a cancellation flag. -/
structure GoContext where
  deadline : Option Nat
  cancelled : Bool
  deriving DecidableEq

/-- Go `context.Background()`: a context with no deadline that is never
cancelled. -/
def GoContext.background : GoContext :=
  { deadline := none, cancelled := false }

/-- Raw webhook payload bytes (Go `[]byte`). -/
abbrev Bytes := List Nat

/-- Webhook HTTP headers (Go `map[string]string`). -/
abbrev Headers := List (String × String)

/-- Go map indexing `headers[k]`: yields the empty string when absent. -/
def headerGet (headers : Headers) (k : String) : String :=
  match headers with
  | [] => ""
  | (k2, v) :: rest => if k2 = k then v else headerGet rest k

/-- Go `interface{}` values carried in `map[string]interface{}` fields. -/
inductive JsonValue where
  | null
  | boolVal (b : Bool)
  | numVal (n : Int)
  | strVal (s : String)
  | arrVal (elems : List JsonValue)
  | objVal (fields : List (String × JsonValue))

/-- Go `map[string]interface{}`. -/
abbrev JsonObject := List (String × JsonValue)

/-- WebhookEventType from gateway.go (a string-typed enumeration). -/
abbrev WebhookEventType := String

/-- CreateOrderRequest from gateway.go. -/
structure CreateOrderRequest where
  amount : Int
  currency : String
  receipt : String
  notes : List (String × String)

/-- CreateOrderResponse from gateway.go. -/
structure CreateOrderResponse where
  gatewayOrderID : String
  amount : Int
  currency : String
  notes : List (String × String)
  extra : JsonObject

/-- VerifyPaymentRequest from gateway.go. -/
structure VerifyPaymentRequest where
  gatewayOrderID : String
  gatewayPaymentID : String
  signature : String

/-- PaymentStatus from gateway.go. -/
structure PaymentStatus where
  gatewayOrderID : String
  gatewayPaymentID : String
  status : String
  paid : Bool

/-- RefundRequest from gateway.go. -/
structure RefundRequest where
  gatewayPaymentID : String
  amount : Int
  notes : List (String × String)

/-- RefundResponse from gateway.go. -/
structure RefundResponse where
  refundID : String
  amount : Int
  status : String

/-- WebhookEvent from gateway.go: the normalised payment webhook event. -/
structure WebhookEvent where
  type : WebhookEventType
  gatewayOrderID : String
  gatewayPaymentID : String
  refundID : String
  disputeID : String
  amount : Int
  currency : String
  failureReason : String
  raw : JsonObject

/-- PaymentGateway interface from gateway.go: each method becomes a function
field, so a value of this type is one concrete adapter. -/
structure PaymentGateway where
  name : String
  createOrder : GoContext → CreateOrderRequest → Except String CreateOrderResponse
  verifyPayment : GoContext → VerifyPaymentRequest → Except String Bool
  getPaymentStatus : GoContext → String → Except String PaymentStatus
  initiateRefund : GoContext → RefundRequest → Except String RefundResponse
  verifyWebhookSignature : Bytes → Headers → Bool
  parseWebhookEvent : Bytes → Except String WebhookEvent
  clientCredentials : JsonObject

/-- CreateContactRequest from payout_gateway.go. -/
structure CreateContactRequest where
  name : String
  email : String
  phone : String
  referenceID : String

/-- ContactResponse from payout_gateway.go. -/
structure ContactResponse where
  contactID : String

/-- CreateFundAccountRequest from payout_gateway.go. -/
structure CreateFundAccountRequest where
  contactID : String
  accountType : String
  vpa : String
  accountName : String
  accountNumber : String
  ifsc : String

/-- FundAccountResponse from payout_gateway.go. -/
structure FundAccountResponse where
  fundAccountID : String

/-- InitiatePayoutRequest from payout_gateway.go. -/
structure InitiatePayoutRequest where
  fundAccountID : String
  amount : Int
  currency : String
  mode : String
  referenceID : String
  narration : String

/-- PayoutResponse from payout_gateway.go. -/
structure PayoutResponse where
  gatewayPayoutID : String
  status : String

/-- PayoutStatusResponse from payout_gateway.go. -/
structure PayoutStatusResponse where
  gatewayPayoutID : String
  status : String
  failureReason : String

/-- PayoutWebhookEventType from payout_gateway.go (string enumeration). -/
abbrev PayoutWebhookEventType := String

/-- PayoutWebhookEvent from payout_gateway.go. -/
structure PayoutWebhookEvent where
  type : PayoutWebhookEventType
  gatewayPayoutID : String
  failureReason : String
  raw : JsonObject

/-- PayoutGateway interface from payout_gateway.go. -/
structure PayoutGateway where
  name : String
  createContact : GoContext → CreateContactRequest → Except String ContactResponse
  updateContact : GoContext → String → CreateContactRequest → Except String ContactResponse
  createFundAccount : GoContext → CreateFundAccountRequest → Except String FundAccountResponse
  initiatePayout : GoContext → InitiatePayoutRequest → Except String PayoutResponse
  getPayoutStatus : GoContext → String → Except String PayoutStatusResponse
  verifyWebhookSignature : Bytes → Headers → Bool
  parseWebhookEvent : Bytes → Except String PayoutWebhookEvent
  isManual : Bool

/-- Go map lookup `gws[name]` over the registry association list (map keys are
unique, so first match is the map entry). -/
def registryLookup {α : Type} (gws : List (String × α)) (name : String) : Option α :=
  match gws with
  | [] => none
  | (k, gw) :: rest => if k = name then some gw else registryLookup rest name

/-- GatewayResolver from the switcher file: yields the active gateway name or
an error message. -/
abbrev GatewayResolver := GoContext → Except String String

/-- DynamicPaymentSwitcher: registry of named payment adapters plus resolver. -/
structure DynamicPaymentSwitcher where
  gateways : List (String × PaymentGateway)
  resolver : GatewayResolver

/-- DynamicPaymentSwitcher.resolve: ask the resolver for a name, wrap resolver
errors, then look the name up in the registry; a miss is the distinct
not-registered error quoting the name (Go `%q`). -/
def DynamicPaymentSwitcher.resolve (s : DynamicPaymentSwitcher) (ctx : GoContext) :
    Except String PaymentGateway :=
  match s.resolver ctx with
  | .error err => .error ("pg-switcher: resolver error: " ++ err)
  | .ok name =>
    match registryLookup s.gateways name with
    | some gw => .ok gw
    | none => .error ("pg-switcher: payment gateway \"" ++ name ++ "\" not registered")

/-- DynamicPaymentSwitcher.Name. -/
def DynamicPaymentSwitcher.name (_ : DynamicPaymentSwitcher) : String := "dynamic"

/-- DynamicPaymentSwitcher.CreateOrder: resolve then delegate. -/
def DynamicPaymentSwitcher.createOrder (s : DynamicPaymentSwitcher) (ctx : GoContext)
    (req : CreateOrderRequest) : Except String CreateOrderResponse :=
  match s.resolve ctx with
  | .error e => .error e
  | .ok gw => gw.createOrder ctx req

/-- DynamicPaymentSwitcher.VerifyPayment: resolve then delegate. -/
def DynamicPaymentSwitcher.verifyPayment (s : DynamicPaymentSwitcher) (ctx : GoContext)
    (req : VerifyPaymentRequest) : Except String Bool :=
  match s.resolve ctx with
  | .error e => .error e
  | .ok gw => gw.verifyPayment ctx req

/-- DynamicPaymentSwitcher.GetPaymentStatus: resolve then delegate. -/
def DynamicPaymentSwitcher.getPaymentStatus (s : DynamicPaymentSwitcher) (ctx : GoContext)
    (gatewayOrderID : String) : Except String PaymentStatus :=
  match s.resolve ctx with
  | .error e => .error e
  | .ok gw => gw.getPaymentStatus ctx gatewayOrderID

/-- DynamicPaymentSwitcher.InitiateRefund: resolve then delegate. -/
def DynamicPaymentSwitcher.initiateRefund (s : DynamicPaymentSwitcher) (ctx : GoContext)
    (req : RefundRequest) : Except String RefundResponse :=
  match s.resolve ctx with
  | .error e => .error e
  | .ok gw => gw.initiateRefund ctx req

/-- The range-over-registry loop in VerifyWebhookSignature: first adapter whose
check passes wins; `||` short-circuits exactly like the Go early return. -/
def anyPaymentVerifies (payload : Bytes) (headers : Headers) :
    List (String × PaymentGateway) → Bool
  | [] => false
  | (_, gw) :: rest =>
    gw.verifyWebhookSignature payload headers || anyPaymentVerifies payload headers rest

/-- DynamicPaymentSwitcher.VerifyWebhookSignature: try all registered
gateways, true when any passes. -/
def DynamicPaymentSwitcher.verifyWebhookSignature (s : DynamicPaymentSwitcher)
    (payload : Bytes) (headers : Headers) : Bool :=
  anyPaymentVerifies payload headers s.gateways

/-- The fallback loop in ParseWebhookEvent: try each registered gateway in
turn, returning the first event that parses without error. -/
def firstPaymentParse (payload : Bytes) :
    List (String × PaymentGateway) → Option WebhookEvent
  | [] => none
  | (_, gw) :: rest =>
    match gw.parseWebhookEvent payload with
    | .ok evt => some evt
    | .error _ => firstPaymentParse payload rest

/-- DynamicPaymentSwitcher.ParseWebhookEvent: resolve with a background
context; on success delegate to the resolved adapter, on failure fall back to
probing each registered gateway, and when that is exhausted wrap the resolve
error in the unable-to-parse message. -/
def DynamicPaymentSwitcher.parseWebhookEvent (s : DynamicPaymentSwitcher)
    (payload : Bytes) : Except String WebhookEvent :=
  match s.resolve GoContext.background with
  | .error e =>
    match firstPaymentParse payload s.gateways with
    | some evt => .ok evt
    | none => .error ("pg-switcher: unable to parse webhook event: " ++ e)
  | .ok gw => gw.parseWebhookEvent payload

/-- DynamicPaymentSwitcher.ClientCredentials: resolve with a background
context; an empty credential map on any resolution failure. -/
def DynamicPaymentSwitcher.clientCredentials (s : DynamicPaymentSwitcher) : JsonObject :=
  match s.resolve GoContext.background with
  | .error _ => []
  | .ok gw => gw.clientCredentials

/-- DynamicPaymentSwitcher.ActiveGatewayName: resolve, then report the
resolved adapter's self-reported Name(). -/
def DynamicPaymentSwitcher.activeGatewayName (s : DynamicPaymentSwitcher)
    (ctx : GoContext) : Except String String :=
  match s.resolve ctx with
  | .error e => .error e
  | .ok gw => .ok gw.name

/-- DynamicPayoutSwitcher: registry of named payout adapters plus resolver. -/
structure DynamicPayoutSwitcher where
  gateways : List (String × PayoutGateway)
  resolver : GatewayResolver

/-- DynamicPayoutSwitcher.resolve, mirroring the payment variant with the
payout not-registered message. -/
def DynamicPayoutSwitcher.resolve (s : DynamicPayoutSwitcher) (ctx : GoContext) :
    Except String PayoutGateway :=
  match s.resolver ctx with
  | .error err => .error ("pg-switcher: resolver error: " ++ err)
  | .ok name =>
    match registryLookup s.gateways name with
    | some gw => .ok gw
    | none => .error ("pg-switcher: payout gateway \"" ++ name ++ "\" not registered")

/-- DynamicPayoutSwitcher.Name. -/
def DynamicPayoutSwitcher.name (_ : DynamicPayoutSwitcher) : String := "dynamic"

/-- DynamicPayoutSwitcher.CreateContact: resolve then delegate. -/
def DynamicPayoutSwitcher.createContact (s : DynamicPayoutSwitcher) (ctx : GoContext)
    (req : CreateContactRequest) : Except String ContactResponse :=
  match s.resolve ctx with
  | .error e => .error e
  | .ok gw => gw.createContact ctx req

/-- DynamicPayoutSwitcher.UpdateContact: resolve then delegate. -/
def DynamicPayoutSwitcher.updateContact (s : DynamicPayoutSwitcher) (ctx : GoContext)
    (contactID : String) (req : CreateContactRequest) : Except String ContactResponse :=
  match s.resolve ctx with
  | .error e => .error e
  | .ok gw => gw.updateContact ctx contactID req

/-- DynamicPayoutSwitcher.CreateFundAccount: resolve then delegate. -/
def DynamicPayoutSwitcher.createFundAccount (s : DynamicPayoutSwitcher) (ctx : GoContext)
    (req : CreateFundAccountRequest) : Except String FundAccountResponse :=
  match s.resolve ctx with
  | .error e => .error e
  | .ok gw => gw.createFundAccount ctx req

/-- DynamicPayoutSwitcher.InitiatePayout: resolve then delegate. -/
def DynamicPayoutSwitcher.initiatePayout (s : DynamicPayoutSwitcher) (ctx : GoContext)
    (req : InitiatePayoutRequest) : Except String PayoutResponse :=
  match s.resolve ctx with
  | .error e => .error e
  | .ok gw => gw.initiatePayout ctx req

/-- DynamicPayoutSwitcher.GetPayoutStatus: resolve then delegate. -/
def DynamicPayoutSwitcher.getPayoutStatus (s : DynamicPayoutSwitcher) (ctx : GoContext)
    (gatewayPayoutID : String) : Except String PayoutStatusResponse :=
  match s.resolve ctx with
  | .error e => .error e
  | .ok gw => gw.getPayoutStatus ctx gatewayPayoutID

/-- The range-over-registry loop in the payout VerifyWebhookSignature. -/
def anyPayoutVerifies (payload : Bytes) (headers : Headers) :
    List (String × PayoutGateway) → Bool
  | [] => false
  | (_, gw) :: rest =>
    gw.verifyWebhookSignature payload headers || anyPayoutVerifies payload headers rest

/-- DynamicPayoutSwitcher.VerifyWebhookSignature: true when any registered
adapter's check passes. -/
def DynamicPayoutSwitcher.verifyWebhookSignature (s : DynamicPayoutSwitcher)
    (payload : Bytes) (headers : Headers) : Bool :=
  anyPayoutVerifies payload headers s.gateways

/-- The fallback loop in the payout ParseWebhookEvent. -/
def firstPayoutParse (payload : Bytes) :
    List (String × PayoutGateway) → Option PayoutWebhookEvent
  | [] => none
  | (_, gw) :: rest =>
    match gw.parseWebhookEvent payload with
    | .ok evt => some evt
    | .error _ => firstPayoutParse payload rest

/-- DynamicPayoutSwitcher.ParseWebhookEvent: background-context resolve, then
delegate or fall back across the registry. -/
def DynamicPayoutSwitcher.parseWebhookEvent (s : DynamicPayoutSwitcher)
    (payload : Bytes) : Except String PayoutWebhookEvent :=
  match s.resolve GoContext.background with
  | .error e =>
    match firstPayoutParse payload s.gateways with
    | some evt => .ok evt
    | none => .error ("pg-switcher: unable to parse payout webhook event: " ++ e)
  | .ok gw => gw.parseWebhookEvent payload

/-- DynamicPayoutSwitcher.IsManual: background-context resolve; false on any
resolution failure, otherwise the resolved adapter's IsManual(). -/
def DynamicPayoutSwitcher.isManual (s : DynamicPayoutSwitcher) : Bool :=
  match s.resolve GoContext.background with
  | .error _ => false
  | .ok gw => gw.isManual

/-- DynamicPayoutSwitcher.ActiveGatewayName: resolve, then the adapter's
self-reported Name(). -/
def DynamicPayoutSwitcher.activeGatewayName (s : DynamicPayoutSwitcher)
    (ctx : GoContext) : Except String String :=
  match s.resolve ctx with
  | .error e => .error e
  | .ok gw => .ok gw.name

/-- Razorpay payment adapter Config (razorpay.go). -/
structure RazorpayConfig where
  keyID : String
  keySecret : String
  webhookSecret : String

/-- razorpay.Adapter.VerifyWebhookSignature: compares the x-razorpay-signature
header against hex(HMAC-SHA256(webhook secret, payload)).  The Go standard
library primitive hex(HMAC-SHA256(key, data)) is passed in as an opaque
function, since crypto/hmac is an external dependency of the repository. -/
def razorpayVerifyWebhookSignature (hmacSHA256Hex : String → Bytes → String)
    (cfg : RazorpayConfig) (payload : Bytes) (headers : Headers) : Bool :=
  let sig := headerGet headers "x-razorpay-signature"
  if sig = "" then false
  else sig == hmacSHA256Hex cfg.webhookSecret payload

/-- Paytm payment adapter Config (paytm.go). -/
structure PaytmConfig where
  mid : String
  merchantKey : String
  website : String
  callbackURL : String
  webhookSecret : String
  production : Bool

/-- paytm.Adapter.VerifyWebhookSignature: compares the x-paytm-signature
header against computeSignature(string(payload), webhook secret), requiring a
non-empty secret.  computeSignature (base64 of HMAC-SHA256, from paytm.go) and
Go's byte-slice-to-string conversion are passed in as opaque functions. -/
def paytmVerifyWebhookSignature (computeSignature : String → String → String)
    (stringOfBytes : Bytes → String) (cfg : PaytmConfig)
    (payload : Bytes) (headers : Headers) : Bool :=
  let sig := headerGet headers "x-paytm-signature"
  if sig = "" ∨ cfg.webhookSecret = "" then false
  else sig == computeSignature (stringOfBytes payload) cfg.webhookSecret

/-- RazorpayX payout adapter Config (razorpayx.go). -/
structure RazorpayXConfig where
  keyID : String
  keySecret : String
  accountNumber : String
  webhookSecret : String

/-- The header-selection step of razorpayx.Adapter.VerifyWebhookSignature:
the x-razorpayx-signature header, falling back to x-razorpay-signature. -/
def razorpayxHeaderSig (headers : Headers) : String :=
  let sig := headerGet headers "x-razorpayx-signature"
  if sig = "" then headerGet headers "x-razorpay-signature" else sig

/-- razorpayx.Adapter.VerifyWebhookSignature: compares the selected header
against hex(HMAC-SHA256(webhook secret, payload)), requiring a non-empty
signature and a non-empty secret. -/
def razorpayxVerifyWebhookSignature (hmacSHA256Hex : String → Bytes → String)
    (cfg : RazorpayXConfig) (payload : Bytes) (headers : Headers) : Bool :=
  let sig := razorpayxHeaderSig headers
  if sig = "" ∨ cfg.webhookSecret = "" then false
  else sig == hmacSHA256Hex cfg.webhookSecret payload

/-- Paytm payout adapter Config (the paytm_payout package). -/
structure PaytmPayoutConfig where
  mid : String
  merchantKey : String
  production : Bool

/-- paytm_payout.Adapter.VerifyWebhookSignature (the Paytm Payouts stub):
true whenever the x-paytm-signature header and the configured merchant key are
both non-empty; the payload is never examined and no HMAC is computed. -/
def paytmPayoutVerifyWebhookSignature (cfg : PaytmPayoutConfig)
    (_payload : Bytes) (headers : Headers) : Bool :=
  let sig := headerGet headers "x-paytm-signature"
  sig != "" && cfg.merchantKey != ""

/-- manual.Adapter.VerifyWebhookSignature: always false, manual payouts have
no webhooks. -/
def manualVerifyWebhookSignature (_payload : Bytes) (_headers : Headers) : Bool :=
  false

/-- A concrete payment adapter used by witnesses: fixed successful responses
and an always-true webhook check. -/
def gwEcho : PaymentGateway :=
  ⟨"echo",
   fun _ req => .ok ⟨"ord_1", req.amount, req.currency, req.notes, []⟩,
   fun _ _ => .ok true,
   fun _ oid => .ok ⟨oid, "", "paid", true⟩,
   fun _ req => .ok ⟨"rf_1", req.amount, "processed"⟩,
   fun _ _ => true,
   fun _ => .ok ⟨"payment.success", "ord_1", "pay_1", "", "", 0, "INR", "", []⟩,
   [("key_id", JsonValue.strVal "rzp_test")]⟩

/-- A concrete payment adapter used by witnesses: every call fails and the
webhook check never passes. -/
def gwDeaf : PaymentGateway :=
  ⟨"deaf",
   fun _ _ => .error "createOrder failed",
   fun _ _ => .error "verifyPayment failed",
   fun _ _ => .error "getPaymentStatus failed",
   fun _ _ => .error "initiateRefund failed",
   fun _ _ => false,
   fun _ => .error "parse failed",
   []⟩

/-- A concrete payout adapter used by witnesses: fixed successful responses,
an always-true webhook check, and a manual flag set to true. -/
def poEcho : PayoutGateway :=
  ⟨"poEcho",
   fun _ req => .ok ⟨"cont_" ++ req.referenceID⟩,
   fun _ cid _ => .ok ⟨cid⟩,
   fun _ req => .ok ⟨"fa_" ++ req.contactID⟩,
   fun _ req => .ok ⟨"pout_" ++ req.referenceID, "processing"⟩,
   fun _ pid => .ok ⟨pid, "processing", ""⟩,
   fun _ _ => true,
   fun _ => .ok ⟨"payout.processed", "pout_1", "", []⟩,
   true⟩

/-- A concrete payout adapter used by witnesses: every call fails and the
webhook check never passes. -/
def poDeaf : PayoutGateway :=
  ⟨"poDeaf",
   fun _ _ => .error "createContact failed",
   fun _ _ _ => .error "updateContact failed",
   fun _ _ => .error "createFundAccount failed",
   fun _ _ => .error "initiatePayout failed",
   fun _ _ => .error "getPayoutStatus failed",
   fun _ _ => false,
   fun _ => .error "parse failed",
   false⟩

/-- A resolver that always yields the registered name "g". -/
def resolverOkG : GatewayResolver := fun _ => .ok "g"

/-- A resolver that yields the unregistered name "stripe". -/
def resolverStripe : GatewayResolver := fun _ => .ok "stripe"

/-- A resolver that always fails. -/
def resolverDown : GatewayResolver := fun _ => .error "config store unreachable"

/-- Witness payment switcher: one registered gateway, resolver hits it. -/
def swPay : DynamicPaymentSwitcher := ⟨[("g", gwEcho)], resolverOkG⟩

/-- Witness payment switcher: resolver names an unregistered gateway. -/
def swPayMiss : DynamicPaymentSwitcher := ⟨[("g", gwEcho)], resolverStripe⟩

/-- Witness payment switcher: the resolver itself fails. -/
def swPayDown : DynamicPaymentSwitcher := ⟨[("d", gwDeaf), ("g", gwEcho)], resolverDown⟩

/-- Witness payment switcher: resolver fails and the registry is empty. -/
def swPayEmpty : DynamicPaymentSwitcher := ⟨[], resolverDown⟩

/-- Witness payout switcher: one registered gateway, resolver hits it. -/
def swPout : DynamicPayoutSwitcher := ⟨[("g", poEcho)], resolverOkG⟩

/-- Witness payout switcher: resolver names an unregistered gateway. -/
def swPoutMiss : DynamicPayoutSwitcher := ⟨[("g", poEcho)], resolverStripe⟩

/-- Witness payout switcher: the resolver itself fails. -/
def swPoutDown : DynamicPayoutSwitcher := ⟨[("d", poDeaf), ("g", poEcho)], resolverDown⟩

/-- Witness payout switcher: resolver fails and the registry is empty. -/
def swPoutEmpty : DynamicPayoutSwitcher := ⟨[], resolverDown⟩

/-- Resolution succeeds exactly when the resolver yields a registered name. -/
theorem payResolve_ok {s : DynamicPaymentSwitcher} {ctx : GoContext}
    {n : String} {a : PaymentGateway}
    (hs : s.resolver ctx = .ok n) (ha : registryLookup s.gateways n = some a) :
    s.resolve ctx = .ok a := by
  unfold DynamicPaymentSwitcher.resolve
  rw [hs]
  simp [ha]

/-- A resolver error becomes the wrapped resolver-error message. -/
theorem payResolve_err {s : DynamicPaymentSwitcher} {ctx : GoContext}
    {e : String} (hs : s.resolver ctx = .error e) :
    s.resolve ctx = .error ("pg-switcher: resolver error: " ++ e) := by
  unfold DynamicPaymentSwitcher.resolve
  rw [hs]

/-- An unregistered name becomes the not-registered message quoting it. -/
theorem payResolve_miss {s : DynamicPaymentSwitcher} {ctx : GoContext}
    {n : String} (hs : s.resolver ctx = .ok n)
    (ha : registryLookup s.gateways n = none) :
    s.resolve ctx = .error ("pg-switcher: payment gateway \"" ++ n ++ "\" not registered") := by
  unfold DynamicPaymentSwitcher.resolve
  rw [hs]
  simp [ha]

/-- Payout analogue of resolve_ok. -/
theorem poutResolve_ok {s : DynamicPayoutSwitcher} {ctx : GoContext}
    {n : String} {a : PayoutGateway}
    (hs : s.resolver ctx = .ok n) (ha : registryLookup s.gateways n = some a) :
    s.resolve ctx = .ok a := by
  unfold DynamicPayoutSwitcher.resolve
  rw [hs]
  simp [ha]

/-- Payout analogue of resolve_err. -/
theorem poutResolve_err {s : DynamicPayoutSwitcher} {ctx : GoContext}
    {e : String} (hs : s.resolver ctx = .error e) :
    s.resolve ctx = .error ("pg-switcher: resolver error: " ++ e) := by
  unfold DynamicPayoutSwitcher.resolve
  rw [hs]

/-- Payout analogue of resolve_miss. -/
theorem poutResolve_miss {s : DynamicPayoutSwitcher} {ctx : GoContext}
    {n : String} (hs : s.resolver ctx = .ok n)
    (ha : registryLookup s.gateways n = none) :
    s.resolve ctx = .error ("pg-switcher: payout gateway \"" ++ n ++ "\" not registered") := by
  unfold DynamicPayoutSwitcher.resolve
  rw [hs]
  simp [ha]

/-- C1: for every registered gateway name n, when the resolver returns n each
forwarding method of the payment switcher (CreateOrder, VerifyPayment,
GetPaymentStatus, InitiateRefund) and of the payout switcher (CreateContact,
UpdateContact, CreateFundAccount, InitiatePayout, GetPayoutStatus) invokes the
identical method on exactly the adapter stored under registry key n, with the
caller's context and request, and returns that adapter's result and error
unmodified. -/
theorem c1_forwarding_delegates
    (ctx : GoContext) (n : String)
    (s : DynamicPaymentSwitcher) (a : PaymentGateway)
    (t : DynamicPayoutSwitcher) (b : PayoutGateway)
    (hs : s.resolver ctx = .ok n) (ha : registryLookup s.gateways n = some a)
    (ht : t.resolver ctx = .ok n) (hb : registryLookup t.gateways n = some b) :
    (∀ req, s.createOrder ctx req = a.createOrder ctx req) ∧
    (∀ req, s.verifyPayment ctx req = a.verifyPayment ctx req) ∧
    (∀ oid, s.getPaymentStatus ctx oid = a.getPaymentStatus ctx oid) ∧
    (∀ req, s.initiateRefund ctx req = a.initiateRefund ctx req) ∧
    (∀ req, t.createContact ctx req = b.createContact ctx req) ∧
    (∀ cid req, t.updateContact ctx cid req = b.updateContact ctx cid req) ∧
    (∀ req, t.createFundAccount ctx req = b.createFundAccount ctx req) ∧
    (∀ req, t.initiatePayout ctx req = b.initiatePayout ctx req) ∧
    (∀ pid, t.getPayoutStatus ctx pid = b.getPayoutStatus ctx pid) := by
  have hra : s.resolve ctx = .ok a := payResolve_ok hs ha
  have hrb : t.resolve ctx = .ok b := poutResolve_ok ht hb
  refine ⟨fun req => ?_, fun req => ?_, fun oid => ?_, fun req => ?_, fun req => ?_,
    fun cid req => ?_, fun req => ?_, fun req => ?_, fun pid => ?_⟩ <;>
    simp [DynamicPaymentSwitcher.createOrder, DynamicPaymentSwitcher.verifyPayment,
      DynamicPaymentSwitcher.getPaymentStatus, DynamicPaymentSwitcher.initiateRefund,
      DynamicPayoutSwitcher.createContact, DynamicPayoutSwitcher.updateContact,
      DynamicPayoutSwitcher.createFundAccount, DynamicPayoutSwitcher.initiatePayout,
      DynamicPayoutSwitcher.getPayoutStatus, hra, hrb]

/-- C1 witness: the scenario of the spec, instantiated on the witness
switchers whose resolver returns the registered key "g". -/
theorem c1_forwarding_delegates_witness :
    swPay.createOrder GoContext.background ⟨10000, "INR", "booking_ref_123", []⟩ =
      gwEcho.createOrder GoContext.background ⟨10000, "INR", "booking_ref_123", []⟩ ∧
    swPout.initiatePayout GoContext.background ⟨"fa_1", 50000, "INR", "UPI", "uuid1", "n"⟩ =
      poEcho.initiatePayout GoContext.background ⟨"fa_1", 50000, "INR", "UPI", "uuid1", "n"⟩ := by
  have h := c1_forwarding_delegates GoContext.background "g" swPay gwEcho swPout poEcho
    rfl (by simp [swPay, registryLookup]) rfl (by simp [swPout, registryLookup])
  exact ⟨h.1 _, h.2.2.2.2.2.2.2.1 _⟩

/-- The payment webhook verification loop equals a Boolean any over the
registry. -/
theorem anyPaymentVerifies_eq_any (payload : Bytes) (headers : Headers)
    (l : List (String × PaymentGateway)) :
    anyPaymentVerifies payload headers l =
      l.any fun e => e.2.verifyWebhookSignature payload headers := by
  induction l with
  | nil => rfl
  | cons x rest ih => simp [anyPaymentVerifies, ih]

/-- The payout webhook verification loop equals a Boolean any over the
registry. -/
theorem anyPayoutVerifies_eq_any (payload : Bytes) (headers : Headers)
    (l : List (String × PayoutGateway)) :
    anyPayoutVerifies payload headers l =
      l.any fun e => e.2.verifyWebhookSignature payload headers := by
  induction l with
  | nil => rfl
  | cons x rest ih => simp [anyPayoutVerifies, ih]

/-- Permuting the registry leaves the payment verification loop's result
unchanged. -/
theorem anyPaymentVerifies_perm (payload : Bytes) (headers : Headers)
    {l1 l2 : List (String × PaymentGateway)} (hp : l1.Perm l2) :
    anyPaymentVerifies payload headers l1 = anyPaymentVerifies payload headers l2 := by
  rw [anyPaymentVerifies_eq_any, anyPaymentVerifies_eq_any]
  refine Bool.eq_iff_iff.mpr ?_
  simp only [List.any_eq_true]
  constructor
  · rintro ⟨x, hx, hv⟩
    exact ⟨x, hp.mem_iff.mp hx, hv⟩
  · rintro ⟨x, hx, hv⟩
    exact ⟨x, hp.mem_iff.mpr hx, hv⟩

/-- Permuting the registry leaves the payout verification loop's result
unchanged. -/
theorem anyPayoutVerifies_perm (payload : Bytes) (headers : Headers)
    {l1 l2 : List (String × PayoutGateway)} (hp : l1.Perm l2) :
    anyPayoutVerifies payload headers l1 = anyPayoutVerifies payload headers l2 := by
  rw [anyPayoutVerifies_eq_any, anyPayoutVerifies_eq_any]
  refine Bool.eq_iff_iff.mpr ?_
  simp only [List.any_eq_true]
  constructor
  · rintro ⟨x, hx, hv⟩
    exact ⟨x, hp.mem_iff.mp hx, hv⟩
  · rintro ⟨x, hx, hv⟩
    exact ⟨x, hp.mem_iff.mpr hx, hv⟩

/-- C2: for both switchers, VerifyWebhookSignature is true exactly when at
least one registered adapter's VerifyWebhookSignature is true for the same
(payload, headers) pair; permuting the registry iteration does not change the
Boolean result; and on the empty registry (hence in particular when no adapter
matches) it is false. -/
theorem c2_webhook_signature_any
    (payload : Bytes) (headers : Headers)
    (s : DynamicPaymentSwitcher) (t : DynamicPayoutSwitcher) :
    (s.verifyWebhookSignature payload headers = true ↔
      ∃ e ∈ s.gateways, e.2.verifyWebhookSignature payload headers = true) ∧
    (∀ s2 : DynamicPaymentSwitcher, s.gateways.Perm s2.gateways →
      s.verifyWebhookSignature payload headers =
        s2.verifyWebhookSignature payload headers) ∧
    (s.gateways = [] → s.verifyWebhookSignature payload headers = false) ∧
    (t.verifyWebhookSignature payload headers = true ↔
      ∃ e ∈ t.gateways, e.2.verifyWebhookSignature payload headers = true) ∧
    (∀ t2 : DynamicPayoutSwitcher, t.gateways.Perm t2.gateways →
      t.verifyWebhookSignature payload headers =
        t2.verifyWebhookSignature payload headers) ∧
    (t.gateways = [] → t.verifyWebhookSignature payload headers = false) := by
  refine ⟨?_, ?_, ?_, ?_, ?_, ?_⟩
  · rw [DynamicPaymentSwitcher.verifyWebhookSignature, anyPaymentVerifies_eq_any]
    simp [List.any_eq_true]
  · intro s2 hp
    exact anyPaymentVerifies_perm payload headers hp
  · intro hnil
    simp [DynamicPaymentSwitcher.verifyWebhookSignature, hnil, anyPaymentVerifies]
  · rw [DynamicPayoutSwitcher.verifyWebhookSignature, anyPayoutVerifies_eq_any]
    simp [List.any_eq_true]
  · intro t2 hp
    exact anyPayoutVerifies_perm payload headers hp
  · intro hnil
    simp [DynamicPayoutSwitcher.verifyWebhookSignature, hnil, anyPayoutVerifies]

/-- C2 witness: on a two-adapter registry where only the second adapter's
check passes, the switcher verifies the webhook, the result survives swapping
the two registry entries, and the empty registry rejects. -/
theorem c2_webhook_signature_any_witness :
    (DynamicPaymentSwitcher.mk [("d", gwDeaf), ("g", gwEcho)] resolverDown).verifyWebhookSignature [] [] =
      (DynamicPaymentSwitcher.mk [("g", gwEcho), ("d", gwDeaf)] resolverDown).verifyWebhookSignature [] [] ∧
    (DynamicPaymentSwitcher.mk [("d", gwDeaf), ("g", gwEcho)] resolverDown).verifyWebhookSignature [] [] = true ∧
    swPayEmpty.verifyWebhookSignature [] [] = false := by
  refine ⟨?_, ?_, ?_⟩
  · exact (c2_webhook_signature_any [] []
      (DynamicPaymentSwitcher.mk [("d", gwDeaf), ("g", gwEcho)] resolverDown) swPoutEmpty).2.1
      (DynamicPaymentSwitcher.mk [("g", gwEcho), ("d", gwDeaf)] resolverDown)
      (List.Perm.swap ("g", gwEcho) ("d", gwDeaf) [])
  · exact (c2_webhook_signature_any [] []
      (DynamicPaymentSwitcher.mk [("d", gwDeaf), ("g", gwEcho)] resolverDown) swPoutEmpty).1.mpr
      ⟨("g", gwEcho), by simp, rfl⟩
  · exact (c2_webhook_signature_any [] [] swPayEmpty swPoutEmpty).2.2.1 rfl

/-- The payment fallback loop returns the first adapter that parses without
error: every earlier adapter failing, the probe stops at the first success. -/
theorem firstPaymentParse_first_ok (payload : Bytes)
    (l1 l2 : List (String × PaymentGateway)) (k : String) (a : PaymentGateway)
    (evt : WebhookEvent)
    (hfail : ∀ x ∈ l1, ∃ msg, x.2.parseWebhookEvent payload = .error msg)
    (hok : a.parseWebhookEvent payload = .ok evt) :
    firstPaymentParse payload (l1 ++ (k, a) :: l2) = some evt := by
  induction l1 with
  | nil => simp [firstPaymentParse, hok]
  | cons x rest ih =>
    obtain ⟨msg, hmsg⟩ := hfail x (by simp)
    rw [List.cons_append, firstPaymentParse, hmsg]
    exact ih fun y hy => hfail y (by simp [hy])

/-- The payout fallback loop returns the first adapter that parses without
error. -/
theorem firstPayoutParse_first_ok (payload : Bytes)
    (l1 l2 : List (String × PayoutGateway)) (k : String) (a : PayoutGateway)
    (evt : PayoutWebhookEvent)
    (hfail : ∀ x ∈ l1, ∃ msg, x.2.parseWebhookEvent payload = .error msg)
    (hok : a.parseWebhookEvent payload = .ok evt) :
    firstPayoutParse payload (l1 ++ (k, a) :: l2) = some evt := by
  induction l1 with
  | nil => simp [firstPayoutParse, hok]
  | cons x rest ih =>
    obtain ⟨msg, hmsg⟩ := hfail x (by simp)
    rw [List.cons_append, firstPayoutParse, hmsg]
    exact ih fun y hy => hfail y (by simp [hy])

/-- C3: ParseWebhookEvent of both switchers first resolves the active gateway
(with a background context); on success it returns exactly what the resolved
adapter's ParseWebhookEvent returns for the payload, and on resolution failure
it probes the registered adapters in registry order and returns the first
event that parses without error. -/
theorem c3_parse_webhook_routing
    (payload : Bytes) (s : DynamicPaymentSwitcher) (t : DynamicPayoutSwitcher) :
    (∀ a, s.resolve GoContext.background = .ok a →
      s.parseWebhookEvent payload = a.parseWebhookEvent payload) ∧
    (∀ e l1 k a l2 evt, s.resolve GoContext.background = .error e →
      s.gateways = l1 ++ (k, a) :: l2 →
      (∀ x ∈ l1, ∃ msg, x.2.parseWebhookEvent payload = .error msg) →
      a.parseWebhookEvent payload = .ok evt →
      s.parseWebhookEvent payload = .ok evt) ∧
    (∀ b, t.resolve GoContext.background = .ok b →
      t.parseWebhookEvent payload = b.parseWebhookEvent payload) ∧
    (∀ e l1 k b l2 evt, t.resolve GoContext.background = .error e →
      t.gateways = l1 ++ (k, b) :: l2 →
      (∀ x ∈ l1, ∃ msg, x.2.parseWebhookEvent payload = .error msg) →
      b.parseWebhookEvent payload = .ok evt →
      t.parseWebhookEvent payload = .ok evt) := by
  refine ⟨?_, ?_, ?_, ?_⟩
  · intro a hr
    simp [DynamicPaymentSwitcher.parseWebhookEvent, hr]
  · intro e l1 k a l2 evt hr hsplit hfail hok
    rw [DynamicPaymentSwitcher.parseWebhookEvent, hr, hsplit,
      firstPaymentParse_first_ok payload l1 l2 k a evt hfail hok]
  · intro b hr
    simp [DynamicPayoutSwitcher.parseWebhookEvent, hr]
  · intro e l1 k b l2 evt hr hsplit hfail hok
    rw [DynamicPayoutSwitcher.parseWebhookEvent, hr, hsplit,
      firstPayoutParse_first_ok payload l1 l2 k b evt hfail hok]

/-- C3 witness: with the resolver down and a registry whose first adapter
cannot parse, the switcher returns the second adapter's event; with a working
resolver it returns the resolved adapter's event. -/
theorem c3_parse_webhook_routing_witness :
    swPay.parseWebhookEvent [] = gwEcho.parseWebhookEvent [] ∧
    swPayDown.parseWebhookEvent [] =
      .ok ⟨"payment.success", "ord_1", "pay_1", "", "", 0, "INR", "", []⟩ := by
  constructor
  · exact (c3_parse_webhook_routing [] swPay swPoutDown).1 gwEcho
      (payResolve_ok rfl (by simp [swPay, registryLookup]))
  · exact (c3_parse_webhook_routing [] swPayDown swPoutDown).2.1
      ("pg-switcher: resolver error: " ++ "config store unreachable")
      [("d", gwDeaf)] "g" gwEcho [] _
      (payResolve_err rfl) rfl
      (by rintro x hx; rw [List.mem_singleton] at hx; exact ⟨"parse failed", by rw [hx]; rfl⟩)
      rfl

/-- Associativity of string concatenation, used to expose the pg-switcher
origin marker at the front of wrapped error messages. -/
theorem stringAppendAssoc (a b c : String) : a ++ b ++ c = a ++ (b ++ c) := by
  obtain ⟨la⟩ := a
  obtain ⟨lb⟩ := b
  obtain ⟨lc⟩ := c
  show String.mk (la ++ lb ++ lc) = String.mk (la ++ (lb ++ lc))
  rw [List.append_assoc]

/-- C4: when the resolver returns a name absent from the registry, every
forwarding method of both switchers returns the not-registered failure — a
constant fully determined by the offending name, so no adapter is invoked and
no default adapter is substituted — and that failure's message contains the
offending name. -/
theorem c4_unregistered_name
    (ctx : GoContext) (n : String)
    (s : DynamicPaymentSwitcher) (t : DynamicPayoutSwitcher)
    (hs : s.resolver ctx = .ok n) (ha : registryLookup s.gateways n = none)
    (ht : t.resolver ctx = .ok n) (hb : registryLookup t.gateways n = none) :
    (∀ req, s.createOrder ctx req =
      .error ("pg-switcher: payment gateway \"" ++ n ++ "\" not registered")) ∧
    (∀ req, s.verifyPayment ctx req =
      .error ("pg-switcher: payment gateway \"" ++ n ++ "\" not registered")) ∧
    (∀ oid, s.getPaymentStatus ctx oid =
      .error ("pg-switcher: payment gateway \"" ++ n ++ "\" not registered")) ∧
    (∀ req, s.initiateRefund ctx req =
      .error ("pg-switcher: payment gateway \"" ++ n ++ "\" not registered")) ∧
    s.activeGatewayName ctx =
      .error ("pg-switcher: payment gateway \"" ++ n ++ "\" not registered") ∧
    (∀ req, t.createContact ctx req =
      .error ("pg-switcher: payout gateway \"" ++ n ++ "\" not registered")) ∧
    (∀ cid req, t.updateContact ctx cid req =
      .error ("pg-switcher: payout gateway \"" ++ n ++ "\" not registered")) ∧
    (∀ req, t.createFundAccount ctx req =
      .error ("pg-switcher: payout gateway \"" ++ n ++ "\" not registered")) ∧
    (∀ req, t.initiatePayout ctx req =
      .error ("pg-switcher: payout gateway \"" ++ n ++ "\" not registered")) ∧
    (∀ pid, t.getPayoutStatus ctx pid =
      .error ("pg-switcher: payout gateway \"" ++ n ++ "\" not registered")) ∧
    t.activeGatewayName ctx =
      .error ("pg-switcher: payout gateway \"" ++ n ++ "\" not registered") ∧
    (∃ pre post,
      "pg-switcher: payment gateway \"" ++ n ++ "\" not registered" = pre ++ n ++ post) ∧
    (∃ pre post,
      "pg-switcher: payout gateway \"" ++ n ++ "\" not registered" = pre ++ n ++ post) := by
  have hra := payResolve_miss hs ha
  have hrb := poutResolve_miss ht hb
  refine ⟨fun req => ?_, fun req => ?_, fun oid => ?_, fun req => ?_, ?_, fun req => ?_,
    fun cid req => ?_, fun req => ?_, fun req => ?_, fun pid => ?_, ?_,
    ⟨"pg-switcher: payment gateway \"", "\" not registered", rfl⟩,
    ⟨"pg-switcher: payout gateway \"", "\" not registered", rfl⟩⟩ <;>
    simp [DynamicPaymentSwitcher.createOrder, DynamicPaymentSwitcher.verifyPayment,
      DynamicPaymentSwitcher.getPaymentStatus, DynamicPaymentSwitcher.initiateRefund,
      DynamicPaymentSwitcher.activeGatewayName, DynamicPayoutSwitcher.createContact,
      DynamicPayoutSwitcher.updateContact, DynamicPayoutSwitcher.createFundAccount,
      DynamicPayoutSwitcher.initiatePayout, DynamicPayoutSwitcher.getPayoutStatus,
      DynamicPayoutSwitcher.activeGatewayName, hra, hrb]

/-- C4 witness: the spec scenario — resolver returns the unregistered
"stripe"; CreateOrder and InitiatePayout fail with messages quoting it. -/
theorem c4_unregistered_name_witness :
    swPayMiss.createOrder GoContext.background ⟨10000, "INR", "r1", []⟩ =
      .error "pg-switcher: payment gateway \"stripe\" not registered" ∧
    swPoutMiss.initiatePayout GoContext.background ⟨"fa_1", 50000, "INR", "UPI", "u1", "n"⟩ =
      .error "pg-switcher: payout gateway \"stripe\" not registered" := by
  have h := c4_unregistered_name GoContext.background "stripe" swPayMiss swPoutMiss
    rfl (by simp [swPayMiss, registryLookup]) rfl (by simp [swPoutMiss, registryLookup])
  exact ⟨h.1 _, h.2.2.2.2.2.2.2.2.1 _⟩

/-- C5: when the resolver itself fails, every forwarding method of both
switchers returns the wrapped resolver error — the same constant for every
registry, so no registry lookup or adapter call can influence the result — and
the message is the resolver's error prefixed by the pg-switcher origin
marker. -/
theorem c5_resolver_error_short_circuits
    (ctx : GoContext) (e : String) (r : GatewayResolver) (hr : r ctx = .error e) :
    (∀ gws : List (String × PaymentGateway), ∀ req,
      (DynamicPaymentSwitcher.mk gws r).createOrder ctx req =
        .error ("pg-switcher: resolver error: " ++ e)) ∧
    (∀ gws : List (String × PaymentGateway), ∀ req,
      (DynamicPaymentSwitcher.mk gws r).verifyPayment ctx req =
        .error ("pg-switcher: resolver error: " ++ e)) ∧
    (∀ gws : List (String × PaymentGateway), ∀ oid,
      (DynamicPaymentSwitcher.mk gws r).getPaymentStatus ctx oid =
        .error ("pg-switcher: resolver error: " ++ e)) ∧
    (∀ gws : List (String × PaymentGateway), ∀ req,
      (DynamicPaymentSwitcher.mk gws r).initiateRefund ctx req =
        .error ("pg-switcher: resolver error: " ++ e)) ∧
    (∀ gws : List (String × PaymentGateway),
      (DynamicPaymentSwitcher.mk gws r).activeGatewayName ctx =
        .error ("pg-switcher: resolver error: " ++ e)) ∧
    (∀ gws : List (String × PayoutGateway), ∀ req,
      (DynamicPayoutSwitcher.mk gws r).createContact ctx req =
        .error ("pg-switcher: resolver error: " ++ e)) ∧
    (∀ gws : List (String × PayoutGateway), ∀ cid req,
      (DynamicPayoutSwitcher.mk gws r).updateContact ctx cid req =
        .error ("pg-switcher: resolver error: " ++ e)) ∧
    (∀ gws : List (String × PayoutGateway), ∀ req,
      (DynamicPayoutSwitcher.mk gws r).createFundAccount ctx req =
        .error ("pg-switcher: resolver error: " ++ e)) ∧
    (∀ gws : List (String × PayoutGateway), ∀ req,
      (DynamicPayoutSwitcher.mk gws r).initiatePayout ctx req =
        .error ("pg-switcher: resolver error: " ++ e)) ∧
    (∀ gws : List (String × PayoutGateway), ∀ pid,
      (DynamicPayoutSwitcher.mk gws r).getPayoutStatus ctx pid =
        .error ("pg-switcher: resolver error: " ++ e)) ∧
    (∀ gws : List (String × PayoutGateway),
      (DynamicPayoutSwitcher.mk gws r).activeGatewayName ctx =
        .error ("pg-switcher: resolver error: " ++ e)) ∧
    "pg-switcher: resolver error: " ++ e = "pg-switcher" ++ (": resolver error: " ++ e) := by
  have hra : ∀ gws : List (String × PaymentGateway),
      (DynamicPaymentSwitcher.mk gws r).resolve ctx =
        .error ("pg-switcher: resolver error: " ++ e) :=
    fun gws => payResolve_err hr
  have hrb : ∀ gws : List (String × PayoutGateway),
      (DynamicPayoutSwitcher.mk gws r).resolve ctx =
        .error ("pg-switcher: resolver error: " ++ e) :=
    fun gws => poutResolve_err hr
  refine ⟨fun gws req => ?_, fun gws req => ?_, fun gws oid => ?_, fun gws req => ?_,
    fun gws => ?_, fun gws req => ?_, fun gws cid req => ?_, fun gws req => ?_,
    fun gws req => ?_, fun gws pid => ?_, fun gws => ?_, ?_⟩ <;>
    first
    | simp [DynamicPaymentSwitcher.createOrder, DynamicPaymentSwitcher.verifyPayment,
        DynamicPaymentSwitcher.getPaymentStatus, DynamicPaymentSwitcher.initiateRefund,
        DynamicPaymentSwitcher.activeGatewayName, DynamicPayoutSwitcher.createContact,
        DynamicPayoutSwitcher.updateContact, DynamicPayoutSwitcher.createFundAccount,
        DynamicPayoutSwitcher.initiatePayout, DynamicPayoutSwitcher.getPayoutStatus,
        DynamicPayoutSwitcher.activeGatewayName, hra, hrb]
    | (rw [← stringAppendAssoc]; rfl)

/-- C5 witness: with the resolver down, CreateOrder on two different
registries returns the same wrapped resolver error, and so does
InitiatePayout. -/
theorem c5_resolver_error_short_circuits_witness :
    swPayDown.createOrder GoContext.background ⟨10000, "INR", "r1", []⟩ =
      .error ("pg-switcher: resolver error: " ++ "config store unreachable") ∧
    swPayEmpty.createOrder GoContext.background ⟨10000, "INR", "r1", []⟩ =
      .error ("pg-switcher: resolver error: " ++ "config store unreachable") ∧
    swPoutDown.initiatePayout GoContext.background ⟨"fa_1", 1, "INR", "UPI", "u1", "n"⟩ =
      .error ("pg-switcher: resolver error: " ++ "config store unreachable") := by
  have h := c5_resolver_error_short_circuits GoContext.background
    "config store unreachable" resolverDown rfl
  exact ⟨h.1 _ _, h.1 _ _, h.2.2.2.2.2.2.2.2.1 _ _⟩

/-- When every registered payment adapter fails to parse, the fallback loop
is exhausted. -/
theorem firstPaymentParse_none (payload : Bytes) (l : List (String × PaymentGateway))
    (hfail : ∀ x ∈ l, ∃ msg, x.2.parseWebhookEvent payload = .error msg) :
    firstPaymentParse payload l = none := by
  induction l with
  | nil => rfl
  | cons x rest ih =>
    obtain ⟨msg, hmsg⟩ := hfail x (by simp)
    rw [firstPaymentParse, hmsg]
    exact ih fun y hy => hfail y (by simp [hy])

/-- When every registered payout adapter fails to parse, the fallback loop is
exhausted. -/
theorem firstPayoutParse_none (payload : Bytes) (l : List (String × PayoutGateway))
    (hfail : ∀ x ∈ l, ∃ msg, x.2.parseWebhookEvent payload = .error msg) :
    firstPayoutParse payload l = none := by
  induction l with
  | nil => rfl
  | cons x rest ih =>
    obtain ⟨msg, hmsg⟩ := hfail x (by simp)
    rw [firstPayoutParse, hmsg]
    exact ih fun y hy => hfail y (by simp [hy])

/-- C6: when resolution fails and every registered adapter fails to parse the
payload (the empty registry being the vacuous case), ParseWebhookEvent of both
switchers returns the constructed parse-exhaustion failure — wrapping the
resolution error, not any single adapter's parse error — and never a success
carrying any event. -/
theorem c6_parse_exhaustion
    (payload : Bytes) (e1 e2 : String)
    (s : DynamicPaymentSwitcher) (t : DynamicPayoutSwitcher)
    (hs : s.resolve GoContext.background = .error e1)
    (hall : ∀ x ∈ s.gateways, ∃ msg, x.2.parseWebhookEvent payload = .error msg)
    (ht : t.resolve GoContext.background = .error e2)
    (hall2 : ∀ x ∈ t.gateways, ∃ msg, x.2.parseWebhookEvent payload = .error msg) :
    s.parseWebhookEvent payload =
      .error ("pg-switcher: unable to parse webhook event: " ++ e1) ∧
    (∀ evt, s.parseWebhookEvent payload ≠ .ok evt) ∧
    t.parseWebhookEvent payload =
      .error ("pg-switcher: unable to parse payout webhook event: " ++ e2) ∧
    (∀ evt, t.parseWebhookEvent payload ≠ .ok evt) := by
  have h1 : s.parseWebhookEvent payload =
      .error ("pg-switcher: unable to parse webhook event: " ++ e1) := by
    rw [DynamicPaymentSwitcher.parseWebhookEvent, hs,
      firstPaymentParse_none payload s.gateways hall]
  have h2 : t.parseWebhookEvent payload =
      .error ("pg-switcher: unable to parse payout webhook event: " ++ e2) := by
    rw [DynamicPayoutSwitcher.parseWebhookEvent, ht,
      firstPayoutParse_none payload t.gateways hall2]
  refine ⟨h1, ?_, h2, ?_⟩
  · intro evt hcontra
    rw [h1] at hcontra
    exact Except.noConfusion hcontra
  · intro evt hcontra
    rw [h2] at hcontra
    exact Except.noConfusion hcontra

/-- C6 witness: with the resolver down and an empty registry, both switchers
report the parse-exhaustion failure wrapping the resolution error. -/
theorem c6_parse_exhaustion_witness :
    swPayEmpty.parseWebhookEvent [] =
      .error ("pg-switcher: unable to parse webhook event: " ++
        ("pg-switcher: resolver error: " ++ "config store unreachable")) ∧
    swPoutEmpty.parseWebhookEvent [] =
      .error ("pg-switcher: unable to parse payout webhook event: " ++
        ("pg-switcher: resolver error: " ++ "config store unreachable")) := by
  have h := c6_parse_exhaustion []
    ("pg-switcher: resolver error: " ++ "config store unreachable")
    ("pg-switcher: resolver error: " ++ "config store unreachable")
    swPayEmpty swPoutEmpty
    (payResolve_err rfl) (by simp [swPayEmpty])
    (poutResolve_err rfl) (by simp [swPoutEmpty])
  exact ⟨h.1, h.2.2.1⟩

/-- C7: ClientCredentials resolves with the background context — which
carries no caller-supplied deadline or cancellation — returns the empty
credential mapping on any resolution failure, and on success exactly the
resolved adapter's credential mapping. -/
theorem c7_client_credentials (s : DynamicPaymentSwitcher) :
    (GoContext.background.deadline = none ∧ GoContext.background.cancelled = false) ∧
    (s.clientCredentials =
      match s.resolve GoContext.background with
      | .error _ => []
      | .ok gw => gw.clientCredentials) ∧
    (∀ e, s.resolve GoContext.background = .error e → s.clientCredentials = []) ∧
    (∀ a, s.resolve GoContext.background = .ok a →
      s.clientCredentials = a.clientCredentials) := by
  refine ⟨⟨rfl, rfl⟩, rfl, ?_, ?_⟩
  · intro e he
    simp [DynamicPaymentSwitcher.clientCredentials, he]
  · intro a ha
    simp [DynamicPaymentSwitcher.clientCredentials, ha]

/-- C7 witness: a failing resolver degrades ClientCredentials to the empty
mapping; a successful resolution returns the resolved adapter's mapping. -/
theorem c7_client_credentials_witness :
    swPayDown.clientCredentials = [] ∧
    swPay.clientCredentials = [("key_id", JsonValue.strVal "rzp_test")] := by
  constructor
  · exact (c7_client_credentials swPayDown).2.2.1 _ (payResolve_err rfl)
  · exact (c7_client_credentials swPay).2.2.2 gwEcho
      (payResolve_ok rfl (by simp [swPay, registryLookup]))

/-- C9: on successful resolution of registered name n, ActiveGatewayName of
both switchers returns the resolved adapter's self-reported Name(), so
whenever that name differs from the registry key n the returned string differs
from the resolver's result. -/
theorem c9_active_gateway_name
    (ctx : GoContext) (n : String)
    (s : DynamicPaymentSwitcher) (a : PaymentGateway)
    (t : DynamicPayoutSwitcher) (b : PayoutGateway)
    (hs : s.resolver ctx = .ok n) (ha : registryLookup s.gateways n = some a)
    (ht : t.resolver ctx = .ok n) (hb : registryLookup t.gateways n = some b) :
    s.activeGatewayName ctx = .ok a.name ∧
    (a.name ≠ n → s.activeGatewayName ctx ≠ .ok n) ∧
    t.activeGatewayName ctx = .ok b.name ∧
    (b.name ≠ n → t.activeGatewayName ctx ≠ .ok n) := by
  have hra := payResolve_ok hs ha
  have hrb := poutResolve_ok ht hb
  have h1 : s.activeGatewayName ctx = .ok a.name := by
    simp [DynamicPaymentSwitcher.activeGatewayName, hra]
  have h2 : t.activeGatewayName ctx = .ok b.name := by
    simp [DynamicPayoutSwitcher.activeGatewayName, hrb]
  refine ⟨h1, ?_, h2, ?_⟩
  · intro hne hcontra
    rw [h1] at hcontra
    exact hne (Except.ok.inj hcontra)
  · intro hne hcontra
    rw [h2] at hcontra
    exact hne (Except.ok.inj hcontra)

/-- C9 witness: the adapter registered under key "g" reports the name "echo",
and ActiveGatewayName returns "echo", not the resolver's "g". -/
theorem c9_active_gateway_name_witness :
    swPay.activeGatewayName GoContext.background = .ok "echo" ∧
    swPay.activeGatewayName GoContext.background ≠ .ok "g" := by
  have h := c9_active_gateway_name GoContext.background "g" swPay gwEcho swPout poEcho
    rfl (by simp [swPay, registryLookup]) rfl (by simp [swPout, registryLookup])
  exact ⟨h.1, h.2.1 (by decide)⟩

/-- C10: IsManual of the payout switcher resolves with the background context
(no caller-supplied deadline or cancellation), silently returns false on any
resolution failure, and on success returns exactly the resolved adapter's
IsManual() value. -/
theorem c10_is_manual (t : DynamicPayoutSwitcher) :
    (GoContext.background.deadline = none ∧ GoContext.background.cancelled = false) ∧
    (t.isManual =
      match t.resolve GoContext.background with
      | .error _ => false
      | .ok gw => gw.isManual) ∧
    (∀ e, t.resolve GoContext.background = .error e → t.isManual = false) ∧
    (∀ b, t.resolve GoContext.background = .ok b → t.isManual = b.isManual) := by
  refine ⟨⟨rfl, rfl⟩, rfl, ?_, ?_⟩
  · intro e he
    simp [DynamicPayoutSwitcher.isManual, he]
  · intro b hb2
    simp [DynamicPayoutSwitcher.isManual, hb2]

/-- C10 witness: a failing resolver makes IsManual false; a successful
resolution returns the resolved adapter's manual flag (true for poEcho). -/
theorem c10_is_manual_witness :
    swPoutDown.isManual = false ∧ swPout.isManual = true := by
  constructor
  · exact (c10_is_manual swPoutDown).2.2.1 _ (poutResolve_err rfl)
  · exact (c10_is_manual swPout).2.2.2 poEcho
      (poutResolve_ok rfl (by simp [swPout, registryLookup]))

/-- C8 counterexample: the paytm_payout stub adapter accepts two different
signature strings for the same configuration and payload, so no function of
the adapter's configuration and the payload — in particular no HMAC of a
payload-derived message under the configured secret — characterises the
signatures it accepts: it returns true merely because a signature header (and
a configured merchant key) is present. -/
theorem c8_counterexample :
    paytmPayoutVerifyWebhookSignature ⟨"m", "k", false⟩ []
      [("x-paytm-signature", "a")] = true ∧
    paytmPayoutVerifyWebhookSignature ⟨"m", "k", false⟩ []
      [("x-paytm-signature", "b")] = true ∧
    ¬ ∃ expected : PaytmPayoutConfig → Bytes → String,
      ∀ cfg payload headers,
        paytmPayoutVerifyWebhookSignature cfg payload headers = true →
        headerGet headers "x-paytm-signature" = expected cfg payload := by
  refine ⟨rfl, rfl, ?_⟩
  rintro ⟨f, hf⟩
  have h1 := hf ⟨"m", "k", false⟩ [] [("x-paytm-signature", "a")] rfl
  have h2 := hf ⟨"m", "k", false⟩ [] [("x-paytm-signature", "b")] rfl
  rw [show headerGet [("x-paytm-signature", "a")] "x-paytm-signature" = "a" from rfl] at h1
  rw [show headerGet [("x-paytm-signature", "b")] "x-paytm-signature" = "b" from rfl] at h2
  exact absurd (h1.trans h2.symm) (by decide)

/-- C8 amended: the razorpay, paytm and razorpayx adapters return true
exactly when the non-empty signature header equals the HMAC of the payload
under the adapter's configured secret (paytm and razorpayx additionally
require a non-empty configured secret, and razorpayx selects the
x-razorpayx-signature header with a fallback to x-razorpay-signature); the
manual adapter never returns true; the paytm_payout stub, however, returns
true exactly when the x-paytm-signature header and the configured merchant key
are both non-empty, performing no HMAC comparison at all. -/
theorem c8_amended_adapter_signature :
    (∀ hmacSHA256Hex : String → Bytes → String, ∀ cfg payload headers,
      razorpayVerifyWebhookSignature hmacSHA256Hex cfg payload headers = true ↔
        (headerGet headers "x-razorpay-signature" ≠ "" ∧
         headerGet headers "x-razorpay-signature" =
           hmacSHA256Hex cfg.webhookSecret payload)) ∧
    (∀ computeSignature : String → String → String, ∀ stringOfBytes : Bytes → String,
      ∀ cfg payload headers,
      paytmVerifyWebhookSignature computeSignature stringOfBytes cfg payload headers = true ↔
        (headerGet headers "x-paytm-signature" ≠ "" ∧ cfg.webhookSecret ≠ "" ∧
         headerGet headers "x-paytm-signature" =
           computeSignature (stringOfBytes payload) cfg.webhookSecret)) ∧
    (∀ hmacSHA256Hex : String → Bytes → String, ∀ cfg payload headers,
      razorpayxVerifyWebhookSignature hmacSHA256Hex cfg payload headers = true ↔
        (razorpayxHeaderSig headers ≠ "" ∧ cfg.webhookSecret ≠ "" ∧
         razorpayxHeaderSig headers = hmacSHA256Hex cfg.webhookSecret payload)) ∧
    (∀ payload headers, manualVerifyWebhookSignature payload headers = false) ∧
    (∀ cfg payload headers,
      paytmPayoutVerifyWebhookSignature cfg payload headers = true ↔
        (headerGet headers "x-paytm-signature" ≠ "" ∧ cfg.merchantKey ≠ "")) := by
  refine ⟨?_, ?_, ?_, fun payload headers => rfl, ?_⟩
  · intro hmacHex cfg payload headers
    by_cases hsig : headerGet headers "x-razorpay-signature" = "" <;>
      simp [razorpayVerifyWebhookSignature, hsig]
  · intro csig sOfB cfg payload headers
    by_cases hsig : headerGet headers "x-paytm-signature" = "" <;>
      by_cases hsec : cfg.webhookSecret = "" <;>
      simp [paytmVerifyWebhookSignature, hsig, hsec]
  · intro hmacHex cfg payload headers
    by_cases hsig : razorpayxHeaderSig headers = "" <;>
      by_cases hsec : cfg.webhookSecret = "" <;>
      simp [razorpayxVerifyWebhookSignature, hsig, hsec]
  · intro cfg payload headers
    simp [paytmPayoutVerifyWebhookSignature, Bool.and_eq_true, bne_iff_ne]

/-- C8 amended witness: with a concrete stand-in for the HMAC primitive the
razorpay adapter accepts the matching signature, and the paytm_payout stub
accepts an arbitrary signature string for an arbitrary payload. -/
theorem c8_amended_adapter_signature_witness :
    razorpayVerifyWebhookSignature (fun _ _ => "aa") ⟨"id", "sec", "whs"⟩ []
      [("x-razorpay-signature", "aa")] = true ∧
    paytmPayoutVerifyWebhookSignature ⟨"m", "k", false⟩ [7]
      [("x-paytm-signature", "zz")] = true := by
  constructor
  · exact (c8_amended_adapter_signature.1 (fun _ _ => "aa") ⟨"id", "sec", "whs"⟩ []
      [("x-razorpay-signature", "aa")]).mpr ⟨by decide, rfl⟩
  · exact (c8_amended_adapter_signature.2.2.2.2 ⟨"m", "k", false⟩ [7]
      [("x-paytm-signature", "zz")]).mpr ⟨by decide, by decide⟩

end PgSwitcher
